import Mathlib

/-!
Shallow embedding of the Chatwoot / Dialogflow CX bridge (src/app.py).

The webhook handler `chatwoot_webhook` (app.py lines 42-101) is modelled as a
pure function from the parsed JSON event and the Dialogflow backend response
to the list of outbound remote calls it issues together with the HTTP
response it produces.  Remote calls (Chatwoot message post, status toggle,
custom-attribute update, Dialogflow detect-intent) are recorded as values of
an inductive `Call` type, in the order the code issues them.  An unhandled
Python exception (KeyError / IndexError while parsing the backend response)
is modelled as the `Except.error` branch of the handler result.

Python truthiness of optional JSON fields is modelled explicitly: a missing
key is `none`, and the truthiness tests the code performs (`if sender_id`,
`if contact_name`, `if not user_meta_sent_dialogflow`) are embedded as
boolean functions on the optional values.
-/

/-- Truthiness of an optional integer JSON field: absent and 0 are falsy. -/
def natTruthy : Option Nat → Bool
  | none => false
  | some n => decide (n ≠ 0)

/-- Truthiness of an optional string JSON field: absent and "" are falsy. -/
def strTruthy : Option String → Bool
  | none => false
  | some s => decide (s ≠ "")

/-- The inbound Chatwoot webhook event, with every field the handler reads
(app.py lines 52-71).  Each optional JSON path is an `Option`; the
`user_meta_sent_dialogflow` field records the Python truthiness of
`conversation.custom_attributes.user_meta_sent_dialogflow` (absent is
falsy). -/
structure Event where
  content : Option String
  message_type : Option String
  conversation_id : Option Nat
  conversation_status : Option String
  sender_id : Option Nat
  sender_name : Option String
  sender_phone : Option String
  sender_email : Option String
  account_id : Option Nat
  user_meta_sent_dialogflow : Bool
  browser_info : List (String × String)
deriving DecidableEq, Repr

/-- The `contact_info` dictionary built at app.py lines 66-71. -/
structure ContactInfo where
  contact_id : Option Nat
  contact_name : Option String
  contact_phone : Option String
  email : Option String
deriving DecidableEq, Repr

/-- Extraction of `contact_info` from the event (app.py lines 66-71). -/
def contactInfoOf (e : Event) : ContactInfo :=
  ⟨e.sender_id, e.sender_name, e.sender_phone, e.sender_email⟩

/-- The `parameters_json` payload built at app.py lines 115-125:
contact info re-extracted from the event plus the browser attributes. -/
structure MetadataPayload where
  contact_info : ContactInfo
  browser_info : List (String × String)
deriving DecidableEq, Repr

/-- Builds `parameters_json` from the raw event (app.py lines 115-125). -/
def parameters_json (e : Event) : MetadataPayload :=
  ⟨⟨e.sender_id, e.sender_name, e.sender_phone, e.sender_email⟩, e.browser_info⟩

/-- The Dialogflow `QueryParameters` object built at app.py lines 128-138. -/
structure QueryParameters where
  end_user_metadata : MetadataPayload
  analyze_query_text_sentiment : Bool
  parameters : MetadataPayload
deriving DecidableEq, Repr

/-- Construction of the query parameters (app.py lines 128-138): the same
`parameters_json` value is passed in both metadata slots, and sentiment
analysis is always requested. -/
def build_query_parameters (e : Event) : QueryParameters :=
  ⟨parameters_json e, true, parameters_json e⟩

/-- The `text` sub-object of a Dialogflow response message: an optional
`text` key holding a list of strings. -/
structure RMText where
  text : Option (List String)
deriving DecidableEq, Repr

/-- One entry of `queryResult.responseMessages`: an optional `text` object
and the presence of the `endInteraction` key. -/
structure ResponseMessage where
  text : Option RMText
  endInteraction : Bool
deriving DecidableEq, Repr

/-- The `queryResult` object of the backend response dictionary.
`execution_summary` is `some s` exactly when both the `parameters` key and
its `execution_summary` key are present (app.py line 158); the
`responseMessages` key is optional and holds a list. -/
structure QueryResult where
  execution_summary : Option String
  responseMessages : Option (List ResponseMessage)
deriving DecidableEq, Repr

/-- The backend response dictionary produced by `MessageToDict` (app.py
line 151): the `queryResult` key is accessed without a guard. -/
structure DialogflowResponse where
  queryResult : Option QueryResult
deriving DecidableEq, Repr

/-- The fixed fallback apology string (app.py line 155). -/
def fallback_text : String := "Desculpe, não entendi."

/-- Parsing of the backend response into `(response_text, end_interaction)`
(app.py lines 150-177).  The unguarded dictionary access
`response_dict[queryResult]` and the index `responseMessages[0]` and
`text.text[0]` raise in Python when the key is absent or the list empty;
those paths are the `Except.error` branch here. -/
def parse_detect_intent_response (r : DialogflowResponse) :
    Except String (String × Bool) :=
  match r.queryResult with
  | none => .error "KeyError: queryResult"
  | some qr =>
    let fulfillment_text :=
      match qr.execution_summary with
      | some s => s
      | none => fallback_text
    match qr.responseMessages with
    | none => .ok (fulfillment_text, false)
    | some [] => .error "IndexError: responseMessages"
    | some (first_message :: _) =>
      let textv : Except String String :=
        match first_message.text with
        | some t =>
          match t.text with
          | some [] => .error "IndexError: text"
          | some (s :: _) => .ok s
          | none => .ok fulfillment_text
        | none => .ok fulfillment_text
      match textv with
      | .error err => .error err
      | .ok response_text => .ok (response_text, first_message.endInteraction)

/-- Whether the first response message of the backend response carries the
`endInteraction` key (app.py line 172); false when there is no message. -/
def first_message_end_interaction (r : DialogflowResponse) : Bool :=
  match r.queryResult with
  | some qr =>
    match qr.responseMessages with
    | some (m :: _) => m.endInteraction
    | _ => false
  | none => false

/-- One outbound remote call issued by the handler, in the order recorded. -/
inductive Call where
  | addCustomAttributes (account : Option Nat) (conv : Option Nat)
      (attrs : List (String × Bool))
  | detectIntent (session_id : String) (text : String)
      (query_params : QueryParameters)
  | postMessage (account : Option Nat) (conv : Option Nat)
      (content : String) (priv : Bool)
  | toggleStatus (account : Option Nat) (conv : Option Nat) (status : String)
deriving DecidableEq, Repr

/-- The calls issued by `add_custom_attributes_chatwoot_conversation`
(app.py lines 196-212): falsy values are filtered out and the HTTP call is
skipped when nothing remains. -/
def add_custom_attributes_calls (account conv : Option Nat)
    (custom_attributes : List (String × Bool)) : List Call :=
  let valid_attributes := custom_attributes.filter (fun kv => kv.2)
  if valid_attributes.isEmpty then []
  else [Call.addCustomAttributes account conv valid_attributes]

/-- The attribute-update calls the enrichment block issues (app.py lines
73 and 81-82): when the flag is falsy the handler sets
`user_meta_sent_dialogflow` to true via the custom-attributes call. -/
def enrichment_calls (e : Event) : List Call :=
  if !e.user_meta_sent_dialogflow then
    add_custom_attributes_calls e.account_id e.conversation_id
      [("user_meta_sent_dialogflow", true)]
  else []

/-- The message text after the enrichment block (app.py lines 73-79): when
the flag is falsy, one clause per truthy contact field is appended in the
fixed order name, phone, email. -/
def enriched_message (e : Event) (message : String) : String :=
  if !e.user_meta_sent_dialogflow then
    let ci := contactInfoOf e
    let m1 := if strTruthy ci.contact_name then
        message ++ "Meu nome é " ++ ci.contact_name.getD "" ++ " "
      else message
    let m2 := if strTruthy ci.contact_phone then
        m1 ++ "Meu telefone é " ++ ci.contact_phone.getD "" ++ " "
      else m1
    let m3 := if strTruthy ci.email then
        m2 ++ "Meu email é " ++ ci.email.getD "" ++ " "
      else m2
    m3
  else message

/-- Modelled from the spec: `build_enrichment_text(contact_info)` of spec
section 4.4 is not a named function in src/app.py (the appends are inline
in the handler); per the spec it deterministically concatenates one
natural-language clause per present (truthy) field in the fixed order
name, phone, email, with nothing produced for absent fields. -/
def build_enrichment_text (ci : ContactInfo) : String :=
  (if strTruthy ci.contact_name then
      "Meu nome é " ++ ci.contact_name.getD "" ++ " " else "")
  ++ (if strTruthy ci.contact_phone then
      "Meu telefone é " ++ ci.contact_phone.getD "" ++ " " else "")
  ++ (if strTruthy ci.email then
      "Meu email é " ++ ci.email.getD "" ++ " " else "")

/-- The eligibility test of app.py line 85: incoming message type, truthy
sender id, pending conversation status. -/
def eligible (e : Event) : Bool :=
  decide (e.message_type = some "incoming")
    && natTruthy e.sender_id
    && decide (e.conversation_status = some "pending")

/-- An HTTP response of the webhook endpoint: status code and JSON body,
the body as ordered key/value pairs. -/
structure HttpResponse where
  status : Nat
  body : List (String × String)
deriving DecidableEq, Repr

/-- Body of the 200 acknowledgment (app.py line 101). -/
def success_body : List (String × String) := [("status", "success")]

/-- Body of the 400 rejection (app.py line 50). -/
def error_body : List (String × String) :=
  [("status", "error"), ("message", "Invalid request data")]

/-- The webhook handler (app.py lines 42-101).  Input: the parsed JSON
event and the backend response the Dialogflow call would return.  Output:
the ordered list of outbound remote calls and either the HTTP response or
an unhandled exception (`Except.error`) raised while parsing the backend
response.  Faithful ordering from the source: validation first, then the
enrichment block (unconditionally on the flag, BEFORE the eligibility
test), then the eligibility test guarding the Dialogflow call and the
reply / escalation branch. -/
def chatwoot_webhook (e : Event) (backend : DialogflowResponse) :
    List Call × Except String HttpResponse :=
  match e.content with
  | none => ([], .ok ⟨400, error_body⟩)
  | some content =>
    let ecalls := enrichment_calls e
    let message := enriched_message e content
    if eligible e then
      let session_id := "session_" ++ toString (e.sender_id.getD 0)
      let dfCall := Call.detectIntent session_id message
        (build_query_parameters e)
      match parse_detect_intent_response backend with
      | .error err => (ecalls ++ [dfCall], .error err)
      | .ok (response_text, end_interaction) =>
        if !end_interaction then
          (ecalls ++ [dfCall,
            Call.postMessage e.account_id e.conversation_id response_text false],
           .ok ⟨200, success_body⟩)
        else
          (ecalls ++ [dfCall,
            Call.postMessage e.account_id e.conversation_id response_text true,
            Call.toggleStatus e.account_id e.conversation_id "open"],
           .ok ⟨200, success_body⟩)
    else
      (ecalls, .ok ⟨200, success_body⟩)

/-- Whether a call is a custom-attribute update. -/
def is_add_custom_attributes : Call → Bool
  | .addCustomAttributes _ _ _ => true
  | _ => false

/-- Whether a call is a Dialogflow detect-intent query. -/
def is_detect_intent : Call → Bool
  | .detectIntent _ _ _ => true
  | _ => false

/-- Whether a call is a Chatwoot message post. -/
def is_post_message : Call → Bool
  | .postMessage _ _ _ _ => true
  | _ => false

/-- Whether a call is a conversation status toggle. -/
def is_toggle_status : Call → Bool
  | .toggleStatus _ _ _ => true
  | _ => false

/-- Claim C9: for every agent query built by the client, the structured
metadata payload passed in the end_user_metadata slot is identical to the
payload passed in the parameters slot of the same request. -/
theorem c9_metadata_slots_identical (e : Event) :
    (build_query_parameters e).end_user_metadata =
      (build_query_parameters e).parameters := rfl

/-- Claim C6: for every request body that is empty or lacks the content
key (modelled as the content field being absent), the webhook responds
with exactly 400 and the invalid-request error body, and issues no remote
calls. -/
theorem c6_missing_content_rejected (e : Event) (b : DialogflowResponse)
    (h : e.content = none) :
    chatwoot_webhook e b = ([], .ok ⟨400, error_body⟩) := by
  simp only [chatwoot_webhook, h]

/-- Witness for C6 at the empty event (all fields absent). -/
theorem c6_witness :
    chatwoot_webhook
      ⟨none, none, none, none, none, none, none, none, none, false, []⟩
      ⟨none⟩ = ([], .ok ⟨400, error_body⟩) :=
  c6_missing_content_rejected _ _ rfl

/-- Claim C10: the backend-response parsing is total only under the
precondition that the response carries a queryResult and that
responseMessages, when present, is non-empty: a response lacking
queryResult hits the unguarded dictionary access, a response with an empty
responseMessages list hits the index of element 0, and when queryResult is
present with responseMessages absent the parse succeeds. -/
theorem c10_parse_totality :
    (∀ r : DialogflowResponse, r.queryResult = none →
      parse_detect_intent_response r = .error "KeyError: queryResult")
    ∧ (∀ (r : DialogflowResponse) (qr : QueryResult),
        r.queryResult = some qr → qr.responseMessages = some [] →
        parse_detect_intent_response r = .error "IndexError: responseMessages")
    ∧ (∀ (r : DialogflowResponse) (qr : QueryResult),
        r.queryResult = some qr → qr.responseMessages = none →
        ∃ p, parse_detect_intent_response r = .ok p) := by
  refine ⟨?_, ?_, ?_⟩
  · intro r h
    simp only [parse_detect_intent_response, h]
  · intro r qr h1 h2
    simp only [parse_detect_intent_response, h1, h2]
  · intro r qr h1 h2
    simp only [parse_detect_intent_response, h1, h2]
    exact ⟨_, rfl⟩

/-- Witness for C10: the two error branches reached and the success case,
at concrete backend responses. -/
theorem c10_witness :
    parse_detect_intent_response ⟨none⟩ = .error "KeyError: queryResult"
    ∧ parse_detect_intent_response ⟨some ⟨none, some []⟩⟩ =
        .error "IndexError: responseMessages"
    ∧ ∃ p, parse_detect_intent_response ⟨some ⟨none, none⟩⟩ = .ok p :=
  ⟨c10_parse_totality.1 ⟨none⟩ rfl,
   c10_parse_totality.2.1 ⟨some ⟨none, some []⟩⟩ ⟨none, some []⟩ rfl rfl,
   c10_parse_totality.2.2 ⟨some ⟨none, none⟩⟩ ⟨none, none⟩ rfl rfl⟩

/-- Counterexample to claim C3 as stated: a backend result with no
response messages but with an execution_summary parameter derives that
summary as reply text, not the fixed fallback apology string. -/
theorem c3_counterexample :
    parse_detect_intent_response ⟨some ⟨some "Resumo da conversa", none⟩⟩
      = .ok ("Resumo da conversa", false)
    ∧ "Resumo da conversa" ≠ fallback_text := by
  exact ⟨rfl, by decide⟩

/-- Claim C3 (amended): for every agent backend result whose queryResult
carries no response messages and no execution_summary parameter, the
derived reply text equals the fixed fallback apology string and the
escalation flag is false. -/
theorem c3_fallback_text (r : DialogflowResponse) (qr : QueryResult)
    (h1 : r.queryResult = some qr) (h2 : qr.responseMessages = none)
    (h3 : qr.execution_summary = none) :
    parse_detect_intent_response r = .ok (fallback_text, false) := by
  simp only [parse_detect_intent_response, h1, h2, h3]

/-- Witness for C3 at a concrete summary-free empty result. -/
theorem c3_witness :
    parse_detect_intent_response ⟨some ⟨none, none⟩⟩
      = .ok (fallback_text, false) :=
  c3_fallback_text ⟨some ⟨none, none⟩⟩ ⟨none, none⟩ rfl rfl rfl

/-- Claim C8: whenever parsing the backend result succeeds, the derived
escalation flag equals the presence of the endInteraction key on the first
response message; in particular it is false when there is no response
message. -/
theorem c8_escalation_iff_end_interaction (r : DialogflowResponse)
    (t : String) (esc : Bool)
    (h : parse_detect_intent_response r = .ok (t, esc)) :
    esc = first_message_end_interaction r := by
  obtain ⟨oqr⟩ := r
  cases oqr with
  | none => simp [parse_detect_intent_response] at h
  | some qr =>
    obtain ⟨es, orm⟩ := qr
    cases orm with
    | none =>
      simp only [parse_detect_intent_response, Except.ok.injEq,
        Prod.mk.injEq] at h
      simp [first_message_end_interaction, ← h.2]
    | some l =>
      cases l with
      | nil => simp [parse_detect_intent_response] at h
      | cons m rest =>
        obtain ⟨otext, ei⟩ := m
        cases otext with
        | none =>
          simp only [parse_detect_intent_response, Except.ok.injEq,
            Prod.mk.injEq] at h
          simp [first_message_end_interaction, ← h.2]
        | some tobj =>
          obtain ⟨ol⟩ := tobj
          cases ol with
          | none =>
            simp only [parse_detect_intent_response, Except.ok.injEq,
              Prod.mk.injEq] at h
            simp [first_message_end_interaction, ← h.2]
          | some ls =>
            cases ls with
            | nil => simp [parse_detect_intent_response] at h
            | cons s srest =>
              simp only [parse_detect_intent_response, Except.ok.injEq,
                Prod.mk.injEq] at h
              simp [first_message_end_interaction, ← h.2]

/-- Witness for C8 at a concrete escalating backend response. -/
theorem c8_witness :
    true = first_message_end_interaction
      ⟨some ⟨none, some [⟨some ⟨some ["Tchau"]⟩, true⟩]⟩⟩ :=
  c8_escalation_iff_end_interaction
    ⟨some ⟨none, some [⟨some ⟨some ["Tchau"]⟩, true⟩]⟩⟩ "Tchau" true rfl

/-- Concrete event refuting claim C1 as stated: valid (content present),
ineligible (message_type is outgoing, not incoming), enrichment flag
unset. -/
def c1_event : Event :=
  ⟨some "hello", some "outgoing", some 42, some "pending", some 7,
   none, none, none, some 1, false, []⟩

/-- Counterexample to claim C1 as stated: this validated but ineligible
event still causes an outbound attribute-update call (the enrichment block
runs before the eligibility test in the source), so the list of remote
calls is not empty. -/
theorem c1_counterexample :
    c1_event.message_type ≠ some "incoming"
    ∧ (chatwoot_webhook c1_event ⟨none⟩).2 = .ok ⟨200, success_body⟩
    ∧ (chatwoot_webhook c1_event ⟨none⟩).1 =
        [Call.addCustomAttributes (some 1) (some 42)
          [("user_meta_sent_dialogflow", true)]] :=
  ⟨by decide, rfl, rfl⟩

/-- Claim C1 (amended): for every validated but ineligible event the
handler issues no agent query, no message post and no status toggle and
returns 200 success; the only outbound calls it may still issue are
attribute updates (the enrichment call, issued when the flag is unset). -/
theorem c1_ineligible_no_calls (e : Event) (b : DialogflowResponse)
    (c : String) (hc : e.content = some c) (hne : eligible e = false) :
    ((chatwoot_webhook e b).1.all is_add_custom_attributes = true)
    ∧ (chatwoot_webhook e b).2 = .ok ⟨200, success_body⟩ := by
  constructor
  · simp only [chatwoot_webhook, hc, hne, Bool.false_eq_true, if_false]
    unfold enrichment_calls add_custom_attributes_calls
    cases e.user_meta_sent_dialogflow <;>
      simp [is_add_custom_attributes]
  · simp only [chatwoot_webhook, hc, hne, Bool.false_eq_true, if_false]

/-- Witness for C1 at a concrete ineligible event with the flag set. -/
theorem c1_witness :
    ((chatwoot_webhook
        ⟨some "hi", none, none, none, none, none, none, none, none, true, []⟩
        ⟨none⟩).1.all is_add_custom_attributes = true)
    ∧ (chatwoot_webhook
        ⟨some "hi", none, none, none, none, none, none, none, none, true, []⟩
        ⟨none⟩).2 = .ok ⟨200, success_body⟩ :=
  c1_ineligible_no_calls _ _ "hi" rfl rfl

/-- The end-to-end scenario event of claim C2. -/
def c2_event : Event :=
  ⟨some "Oi", some "incoming", some 42, some "pending", some 7,
   some "Ana", none, none, some 1, false, []⟩

/-- The backend response of claim C2: one response message with the text
Olá! and no end-interaction marker. -/
def c2_backend : DialogflowResponse :=
  ⟨some ⟨none, some [⟨some ⟨some ["Olá!"]⟩, false⟩]⟩⟩

/-- Counterexample to claim C2 as stated: on the scenario event the agent
query text is the concatenation WITHOUT a separating space (the source
appends the name clause directly to the original message), so it differs
from the text the claim expects. -/
theorem c2_counterexample :
    (chatwoot_webhook c2_event c2_backend).1 =
      [Call.addCustomAttributes (some 1) (some 42)
         [("user_meta_sent_dialogflow", true)],
       Call.detectIntent "session_7" "OiMeu nome é Ana "
         (build_query_parameters c2_event),
       Call.postMessage (some 1) (some 42) "Olá!" false]
    ∧ ("OiMeu nome é Ana " : String) ≠ "Oi Meu nome é Ana " :=
  ⟨rfl, by decide⟩

/-- Claim C2 (amended): the end-to-end scenario as the code computes it —
one enrichment attribute call for conversation 42 setting the flag true,
agent query text exactly "OiMeu nome é Ana " (no space is inserted between
the original message and the appended name clause), exactly one public
message post with content Olá! to conversation 42, and the 200 success
response. -/
theorem c2_scenario :
    chatwoot_webhook c2_event c2_backend =
      ([Call.addCustomAttributes (some 1) (some 42)
          [("user_meta_sent_dialogflow", true)],
        Call.detectIntent "session_7" "OiMeu nome é Ana "
          ⟨⟨⟨some 7, some "Ana", none, none⟩, []⟩, true,
           ⟨⟨some 7, some "Ana", none, none⟩, []⟩⟩,
        Call.postMessage (some 1) (some 42) "Olá!" false],
       .ok ⟨200, [("status", "success")]⟩) := rfl

/-- Shape of the handler result on a validated, eligible event whose
backend response parses successfully: the enrichment calls, then the
detect-intent call, then the reply or escalation calls, and the 200
acknowledgment. -/
theorem chatwoot_webhook_eligible (e : Event) (b : DialogflowResponse)
    (c t : String) (esc : Bool)
    (hc : e.content = some c) (he : eligible e = true)
    (hp : parse_detect_intent_response b = .ok (t, esc)) :
    chatwoot_webhook e b =
      (enrichment_calls e ++
        (Call.detectIntent ("session_" ++ toString (e.sender_id.getD 0))
            (enriched_message e c) (build_query_parameters e) ::
          (if esc then
            [Call.postMessage e.account_id e.conversation_id t true,
             Call.toggleStatus e.account_id e.conversation_id "open"]
          else
            [Call.postMessage e.account_id e.conversation_id t false])),
       .ok ⟨200, success_body⟩) := by
  cases esc <;> simp [chatwoot_webhook, hc, he, hp]

/-- Claim C4: for every eligible event, when the parsed agent result
escalates, the message-post and status-toggle calls are exactly a private
post of the reply text followed by a toggle to open (so no public post);
when it does not escalate, they are exactly one public post of the reply
text (so no toggle). -/
theorem c4_escalation_routing (e : Event) (b : DialogflowResponse)
    (c t : String) (esc : Bool)
    (hc : e.content = some c) (he : eligible e = true)
    (hp : parse_detect_intent_response b = .ok (t, esc)) :
    (esc = true →
      ((chatwoot_webhook e b).1.filter
          (fun k => is_post_message k || is_toggle_status k)) =
        [Call.postMessage e.account_id e.conversation_id t true,
         Call.toggleStatus e.account_id e.conversation_id "open"])
    ∧ (esc = false →
      ((chatwoot_webhook e b).1.filter
          (fun k => is_post_message k || is_toggle_status k)) =
        [Call.postMessage e.account_id e.conversation_id t false]) := by
  have hfilter : (enrichment_calls e).filter
      (fun k => is_post_message k || is_toggle_status k) = [] := by
    unfold enrichment_calls add_custom_attributes_calls
    cases e.user_meta_sent_dialogflow <;>
      simp [is_post_message, is_toggle_status]
  constructor <;> intro hesc <;> subst hesc <;>
    rw [chatwoot_webhook_eligible e b c t _ hc he hp] <;>
    simp only [List.filter_append, hfilter, List.nil_append] <;>
    rfl

/-- Concrete eligible event for the C4 witness (flag already set). -/
def c4_event : Event :=
  ⟨some "Oi", some "incoming", some 5, some "pending", some 3,
   none, none, none, some 2, true, []⟩

/-- Concrete escalating backend response for the C4 witness. -/
def c4_backend : DialogflowResponse :=
  ⟨some ⟨none, some [⟨some ⟨some ["Tchau"]⟩, true⟩]⟩⟩

/-- Witness for C4: on a concrete eligible event with an escalating
result, the post/toggle calls are exactly the private post then the
toggle to open. -/
theorem c4_witness :
    ((chatwoot_webhook c4_event c4_backend).1.filter
        (fun k => is_post_message k || is_toggle_status k)) =
      [Call.postMessage (some 2) (some 5) "Tchau" true,
       Call.toggleStatus (some 2) (some 5) "open"] :=
  (c4_escalation_routing c4_event c4_backend "Oi" "Tchau" true
    rfl rfl rfl).1 rfl

/-- Claim C5: the enrichment latch.  When the conversation flag
user_meta_sent_dialogflow is truthy, no enrichment text is appended to the
outgoing message and no custom-attribute call is issued, whatever contact
fields are present; when the flag is not truthy (and the event passes
validation), the handler sets the flag to true via the custom-attributes
call. -/
theorem c5_enrichment_latch (e : Event) (b : DialogflowResponse)
    (c : String) :
    (e.user_meta_sent_dialogflow = true →
      enriched_message e c = c
      ∧ (chatwoot_webhook e b).1.all
          (fun k => !is_add_custom_attributes k) = true)
    ∧ (e.content = some c → e.user_meta_sent_dialogflow = false →
      Call.addCustomAttributes e.account_id e.conversation_id
        [("user_meta_sent_dialogflow", true)] ∈ (chatwoot_webhook e b).1) := by
  constructor
  · intro hflag
    have hec : enrichment_calls e = [] := by
      simp [enrichment_calls, hflag]
    refine ⟨by simp [enriched_message, hflag], ?_⟩
    cases hcon : e.content with
    | none => simp [chatwoot_webhook, hcon]
    | some c2 =>
      cases heli : eligible e with
      | false =>
        simp only [chatwoot_webhook, hcon, heli, Bool.false_eq_true,
          if_false]
        simp [hec]
      | true =>
        cases hp : parse_detect_intent_response b with
        | error err =>
          simp [chatwoot_webhook, hcon, heli, hp, hec,
            is_add_custom_attributes]
        | ok p =>
          obtain ⟨t, esc⟩ := p
          cases esc <;>
            simp [chatwoot_webhook, hcon, heli, hp, hec,
              is_add_custom_attributes]
  · intro hc hflag
    have hec : enrichment_calls e =
        [Call.addCustomAttributes e.account_id e.conversation_id
          [("user_meta_sent_dialogflow", true)]] := by
      simp [enrichment_calls, add_custom_attributes_calls, hflag,
        List.filter]
    cases heli : eligible e with
    | false =>
      simp only [chatwoot_webhook, hc, heli, Bool.false_eq_true, if_false]
      simp [hec]
    | true =>
      cases hp : parse_detect_intent_response b with
      | error err => simp [chatwoot_webhook, hc, heli, hp, hec]
      | ok p =>
        obtain ⟨t, esc⟩ := p
        cases esc <;> simp [chatwoot_webhook, hc, heli, hp, hec]

/-- Concrete event with the flag set and all contact fields present, for
the first half of the C5 witness. -/
def c5_event_set : Event :=
  ⟨some "Oi", some "incoming", some 5, some "pending", some 3,
   some "Bea", some "+551188", some "b@c.de", some 2, true, []⟩

/-- Concrete event with the flag unset, for the second half of the C5
witness. -/
def c5_event_unset : Event :=
  ⟨some "Oi", none, some 6, none, none, none, none, none, some 2, false, []⟩

/-- Witness for C5: with the flag set nothing is appended and no attribute
call appears; with it unset the flag-setting attribute call is issued. -/
theorem c5_witness :
    (enriched_message c5_event_set "Oi" = "Oi"
     ∧ (chatwoot_webhook c5_event_set ⟨some ⟨none, none⟩⟩).1.all
         (fun k => !is_add_custom_attributes k) = true)
    ∧ Call.addCustomAttributes (some 2) (some 6)
        [("user_meta_sent_dialogflow", true)]
        ∈ (chatwoot_webhook c5_event_unset ⟨none⟩).1 :=
  ⟨(c5_enrichment_latch c5_event_set ⟨some ⟨none, none⟩⟩ "Oi").1 rfl,
   (c5_enrichment_latch c5_event_unset ⟨none⟩ "Oi").2 rfl rfl⟩

/-- Claim C7: for every event with the enrichment flag unset, the message
sent onward is the original content followed by the enrichment text, which
concatenates one natural-language clause per present (truthy) contact
field in the fixed order name, phone, email, each exactly once; and when
no field is present the enrichment text is empty. -/
theorem c7_enrichment_text_order (e : Event) (c : String)
    (h : e.user_meta_sent_dialogflow = false) :
    enriched_message e c = c ++ build_enrichment_text (contactInfoOf e)
    ∧ (∀ ci : ContactInfo, strTruthy ci.contact_name = false →
        strTruthy ci.contact_phone = false → strTruthy ci.email = false →
        build_enrichment_text ci = "") := by
  constructor
  · apply String.ext
    simp only [enriched_message, h, Bool.not_false, if_true,
      build_enrichment_text]
    cases hn : strTruthy (contactInfoOf e).contact_name <;>
    cases hp : strTruthy (contactInfoOf e).contact_phone <;>
    cases hm : strTruthy (contactInfoOf e).email <;>
      simp only [hn, hp, hm, if_true, if_false, String.data_append,
        List.append_assoc, List.append_nil, List.nil_append,
        String.append_empty, Bool.false_eq_true]
  · intro ci h1 h2 h3
    simp [build_enrichment_text, h1, h2, h3]

/-- Witness for C7 at the spec example contact (name Ana, phone +5511999,
email a@b.com, all present) and at the empty contact. -/
theorem c7_witness :
    enriched_message
        ⟨some "Oi", some "incoming", some 42, some "pending", some 7,
         some "Ana", some "+5511999", some "a@b.com", some 1, false, []⟩ "Oi"
      = "Oi" ++ build_enrichment_text
          ⟨some 7, some "Ana", some "+5511999", some "a@b.com"⟩
    ∧ build_enrichment_text ⟨none, none, none, none⟩ = "" :=
  ⟨(c7_enrichment_text_order
      ⟨some "Oi", some "incoming", some 42, some "pending", some 7,
       some "Ana", some "+5511999", some "a@b.com", some 1, false, []⟩
      "Oi" rfl).1,
   (c7_enrichment_text_order
      ⟨some "Oi", some "incoming", some 42, some "pending", some 7,
       some "Ana", some "+5511999", some "a@b.com", some 1, false, []⟩
      "Oi" rfl).2 ⟨none, none, none, none⟩ rfl rfl rfl⟩

/-- Witness for C9 at the concrete scenario event. -/
theorem c9_witness :
    (build_query_parameters
        ⟨some "Oi", some "incoming", some 42, some "pending", some 7,
         some "Ana", none, none, some 1, false, []⟩).end_user_metadata =
      (build_query_parameters
        ⟨some "Oi", some "incoming", some 42, some "pending", some 7,
         some "Ana", none, none, some 1, false, []⟩).parameters :=
  c9_metadata_slots_identical
    ⟨some "Oi", some "incoming", some 42, some "pending", some 7,
     some "Ana", none, none, some 1, false, []⟩
